import Mathlib

/-!
Verification of the StandupMathsChristmastreeArduino firmware
(src/StandupMathsChristmasTree.ino, plus the earlier revisions kept in
src/unnamed/part_000) against its natural-language specification.

The sketch is shallowly embedded: the C++ globals become one explicit
state record, every function of the sketch that the claims touch becomes
a Lean function on that record, and fallible code paths (out-of-bounds
array accesses, writes through null pointers -- undefined behavior in the
source) return Option, with none marking the undefined access.

Modelling conventions, stated once:
* uint8_t / uint16_t / unsigned long values are Nat; every value stored
  comes from a source-side range check (0..255, 1..8196) or from modular
  arithmetic written out explicitly (millis subtraction mod 2^32).
* float32 coordinates are modelled as rationals: the sketch only ever
  stores and copies positions (it performs no float arithmetic on them),
  and every concrete coordinate used below is exactly representable.
* The Adafruit_NeoPixel driver is external; its setPixelColor performs an
  internal bounds check (writes beyond numLEDs are dropped), its clear
  zeroes the buffer, and show copies the buffer to the physical strip
  (field hw below).
* Preferences (NVS) is external; the keys the sketch uses become typed
  optional fields. The led_positions blob is kept in parsed form as an
  association list, and led_state as the mask list itself, since the
  sketch only round-trips them.
* HTTP request bodies are modelled per handler as a small inductive:
  the no-body and unparsable-JSON cases, and the parsed shape the handler
  actually reads (integer-or-absent fields suffice for every claim).
-/

namespace LedFirmware

/-- One GRB pixel value as handed to the strip driver (uint8 each). -/
structure Color where
  r : Nat
  g : Nat
  b : Nat
deriving DecidableEq, Repr

/-- Color(0,0,0). -/
def Color.black : Color := ⟨0, 0, 0⟩

/-- struct Point with float x, y, z (see float32 convention above). -/
structure Point where
  x : ℚ
  y : ℚ
  z : ℚ
deriving DecidableEq, Repr

/-- enum EffectType of the current revision: EFFECT_NONE = 0,
EFFECT_BLINK, EFFECT_ALL_ON (the sweep effects of the spec do not exist
in the source; the enum comment only mentions future EFFECT_PULSE and
EFFECT_CHASE). -/
inductive EffectType where
  | EFFECT_NONE
  | EFFECT_BLINK
  | EFFECT_ALL_ON
deriving DecidableEq, Repr, Fintype

/-- The numeric id persisted by prefs.putUInt, i.e. the enum value. -/
def EffectType.toUInt : EffectType → Nat
  | .EFFECT_NONE => 0
  | .EFFECT_BLINK => 1
  | .EFFECT_ALL_ON => 2

/-- The NVS keys the sketch reads or writes (namespace ledcfg). A none
field means the key is absent. -/
structure Prefs where
  last_effect : Option Nat
  num_leds : Option Nat
  led_positions : Option (List (String × Point))
  led_state : Option (List Bool)
  bR : Option Nat
  bG : Option Nat
  bB : Option Nat
deriving DecidableEq, Repr

/-- The sketch's global mutable state. Null pointers (pixels, and the
never-allocated boot arrays) are modelled as none / []. hw is the frame
last pushed to the physical strip by pixels->show(). -/
structure SysState where
  numPixels : Nat
  ledMask : List Bool
  ledPositions : List Point
  pixels : Option (List Color)
  hw : List Color
  baseR : Nat
  baseG : Nat
  baseB : Nat
  currentEffect : EffectType
  effectStartTimeMs : Nat
  prefs : Prefs
deriving DecidableEq, Repr

/-- The base color as a Color triple. -/
def SysState.baseColor (s : SysState) : Color := ⟨s.baseR, s.baseG, s.baseB⟩

/-- Adafruit_NeoPixel::setPixelColor on the raw frame buffer: the driver
itself bounds-checks (if (n < numLEDs)), which is exactly List.set's
behavior of leaving the list unchanged when the index is past the end. -/
def neoSet (buf : List Color) (n : Nat) (c : Color) : List Color :=
  buf.set n c

/-- void setPixelColor(uint16_t index, uint8_t r, uint8_t g, uint8_t b).
Source: if (!pixels) return; then it reads ledMask[index] with NO bounds
check, and writes either the requested color or black through the driver.
The unguarded ledMask[index] read is modelled by List.get?: none means
the source performs an out-of-bounds read (undefined behavior). -/
def setPixelColor (s : SysState) (index : Nat) (c : Color) : Option SysState :=
  match s.pixels with
  | none => some s
  | some buf =>
    (s.ledMask[index]?).map fun m =>
      { s with pixels := some (neoSet buf index (if m then c else Color.black)) }

/-- void showPixelColors(): pixels->show() guarded by a null check. -/
def showPixelColors (s : SysState) : SysState :=
  match s.pixels with
  | none => s
  | some buf => { s with hw := buf }

/-- The for-loop for (i = 0; i < n; ++i) setPixelColor(i, f i), applied
to indices 0..n-1 in ascending order. -/
def setPixelLoop (f : Nat → Color) : Nat → SysState → Option SysState
  | 0, s => some s
  | n + 1, s => (setPixelLoop f n s).bind fun st => setPixelColor st n (f n)

/-- Pure description of what such a loop leaves in the frame buffer:
positions 0..n-1 hold (mask ? f i : black), the rest is untouched. -/
def paint (mask : List Bool) (f : Nat → Color) : Nat → List Color → List Color
  | 0, buf => buf
  | n + 1, buf => neoSet (paint mask f n buf) n (if mask.getD n false then f n else Color.black)

/-- void redrawPixels() of the current revision: if (!pixels) return;
then every masked-on pixel gets the base color, every masked-off pixel
black, then pixels->show(). The loop body reads ledMask[i] directly; the
read is in bounds in every reachable state, and the Option again marks
the out-of-bounds read that a corrupted state would perform. -/
def redrawLoop : Nat → SysState → Option SysState
  | 0, s => some s
  | n + 1, s =>
    (redrawLoop n s).bind fun st =>
      (st.ledMask[n]?).map fun m =>
        { st with pixels := (st.pixels).map fun buf =>
            neoSet buf n (if m then st.baseColor else Color.black) }

/-- void redrawPixels(). -/
def redrawPixels (s : SysState) : Option SysState :=
  match s.pixels with
  | none => some s
  | some _ => (redrawLoop s.numPixels s).map showPixelColors

/-- void allocateStrip(uint16_t newNum). Frees pixels / ledMask /
ledPositions, sets numPixels = newNum, allocates the mask all-false, and
allocates ledPositions with new Point[numPixels] -- which does NOT
initialize the floats: the fresh heap contents are the explicit argument
fresh, one indeterminate Point per index. The new driver is begun,
cleared and shown, so the buffer and the physical strip end all black. -/
def allocateStrip (s : SysState) (newNum : Nat) (fresh : Nat → Point) : SysState :=
  { s with
    numPixels := newNum
    ledMask := List.replicate newNum false
    ledPositions := (List.range newNum).map fresh
    pixels := some (List.replicate newNum Color.black)
    hw := List.replicate newNum Color.black }

/-- void stopAllEffects(): sets currentEffect = EFFECT_NONE,
effectStartTimeMs = 0, persists last_effect = EFFECT_NONE, then loops
setPixelColor(i, baseR, baseG, baseB) over all pixels (the source's TODO
comment notes this equals the all-on button, it does NOT black out) and
calls showPixelColors(). -/
def stopAllEffects (s : SysState) : Option SysState :=
  let s1 := { s with
    currentEffect := EffectType.EFFECT_NONE
    effectStartTimeMs := 0
    prefs := { s.prefs with last_effect := some EffectType.EFFECT_NONE.toUInt } }
  (setPixelLoop (fun _ => s1.baseColor) s1.numPixels s1).map showPixelColors

/-- void startEffect(EffectType effect): stopAllEffects, then set
currentEffect = effect, effectStartTimeMs = millis() (the now argument),
and persist last_effect = effect. -/
def startEffect (s : SysState) (effect : EffectType) (now : Nat) : Option SysState :=
  (stopAllEffects s).map fun st =>
    { st with
      currentEffect := effect
      effectStartTimeMs := now
      prefs := { st.prefs with last_effect := some effect.toUInt } }

/-- The blink on/off decision of the current revision, taken verbatim:
char secs_on = 1; char secs_off = 1;
bool on = ((elapsed / 1000) % (secs_on + secs_off)) <= secs_on; -/
def secsOn : Nat := 1

/-- char secs_off = 1. -/
def secsOff : Nat := 1

/-- bool on of updateBlinkEffect in src/StandupMathsChristmasTree.ino. -/
def blinkOn (elapsed : Nat) : Bool :=
  decide ((elapsed / 1000) % (secsOn + secsOff) ≤ secsOn)

/-- bool on of updateBlinkEffect in the earlier revision
(src/unnamed/part_000, updateBlinkEffect(unsigned long now)):
bool on = ((elapsed / 1000) % 2) == 0. -/
def blinkOnV0 (elapsed : Nat) : Bool :=
  decide ((elapsed / 1000) % 2 = 0)

/-- unsigned long elapsed = millis() - effectStartTimeMs, 32-bit wrapping
subtraction. -/
def elapsedSince (now start : Nat) : Nat :=
  (now % 2 ^ 32 + 2 ^ 32 - start % 2 ^ 32) % 2 ^ 32

/-- void updateBlinkEffect() of the current revision: compute elapsed and
on, then loop setPixelColor(i, base...) when on else setPixelColor(i,
0,0,0), then showPixelColors(). -/
def updateBlinkEffect (s : SysState) (now : Nat) : Option SysState :=
  let elapsed := elapsedSince now s.effectStartTimeMs
  let c : Color := if blinkOn elapsed then s.baseColor else ⟨0, 0, 0⟩
  (setPixelLoop (fun _ => c) s.numPixels s).map showPixelColors

/-- The switch (currentEffect) in loop(): EFFECT_BLINK runs
updateBlinkEffect, EFFECT_ALL_ON and EFFECT_NONE (and default) do
nothing. -/
def loopTick (s : SysState) (now : Nat) : Option SysState :=
  match s.currentEffect with
  | .EFFECT_BLINK => updateBlinkEffect s now
  | .EFFECT_ALL_ON => some s
  | .EFFECT_NONE => some s

/-! ## atoi and the persistence-facing operations -/

/-- One character of the C locale's isspace set, as skipped by atoi. -/
def isSpaceChar (c : Char) : Bool :=
  c = ' ' ∨ c = '\t' ∨ c = '\n' ∨ c = '\x0b' ∨ c = '\x0c' ∨ c = '\r'

/-- '0' ≤ c ≤ '9'. -/
def isDigitChar (c : Char) : Bool :=
  '0' ≤ c ∧ c ≤ '9'

/-- The maximal leading digit run, accumulated left to right. -/
def atoiDigits : List Char → Nat → Nat
  | [], acc => acc
  | c :: cs, acc =>
    if isDigitChar c then atoiDigits cs (acc * 10 + (c.toNat - '0'.toNat)) else acc

/-- int atoi(const char*): skip whitespace, take an optional sign, then
the maximal digit prefix; 0 when no digits follow. (Overflow saturation
is left out: every key the firmware meets is far below INT_MAX.) -/
def atoi (s : String) : Int :=
  match s.data.dropWhile isSpaceChar with
  | [] => 0
  | c :: cs =>
    if c = '-' then -(atoiDigits cs 0 : Int)
    else if c = '+' then (atoiDigits cs 0 : Int)
    else (atoiDigits (c :: cs) 0 : Int)

/-- True when the list is empty or starts with a non-digit. -/
def headNotDigit : List Char → Bool
  | [] => true
  | d :: _ => !isDigitChar d

/-- True when, after optional whitespace and sign, the key does not start
with a digit (so atoi returns 0 from an empty digit run). -/
def noLeadingDigit (s : String) : Bool :=
  match s.data.dropWhile isSpaceChar with
  | [] => true
  | c :: cs => if c = '-' ∨ c = '+' then headNotDigit cs else !isDigitChar c

/-- ledPositions[idx] = value, where idx has passed the source's
0 <= idx < numPixels guard; none marks the write the source performs
through a dangling/null ledPositions pointer (or past its end) when the
array's real length disagrees with numPixels. -/
def storePosAt (s : SysState) (idx : Nat) (p : Point) : Option SysState :=
  if idx < s.ledPositions.length then
    some { s with ledPositions := s.ledPositions.set idx p }
  else
    none

/-- The for (JsonPair kv : obj) loop of loadLedPositionsFromStorage:
int idx = atoi(key); if (idx >= 0 && idx < numPixels) write the triple. -/
def loadPosLoop : List (String × Point) → SysState → Option SysState
  | [], s => some s
  | (k, p) :: rest, s =>
    let idx := atoi k
    if 0 ≤ idx ∧ idx < (s.numPixels : Int) then
      (storePosAt s idx.toNat p).bind (loadPosLoop rest)
    else
      loadPosLoop rest s

/-- void loadLedPositionsFromStorage(): read the led_positions blob
(return unchanged when absent or unparsable -- both modelled as none),
take newNum = obj.size(); if newNum != numPixels, persist num_leds =
newNum and allocateStrip(newNum); set numPixels = newNum; then run the
key loop above. -/
def loadLedPositionsFromStorage (s : SysState) (fresh : Nat → Point) : Option SysState :=
  match s.prefs.led_positions with
  | none => some s
  | some obj =>
    let newNum := obj.length
    let s1 :=
      if newNum ≠ s.numPixels then
        allocateStrip { s with prefs := { s.prefs with num_leds := some newNum } } newNum fresh
      else s
    loadPosLoop obj { s1 with numPixels := newNum }

/-- State of the C++ globals when setup() begins: default count 500,
null ledMask / ledPositions / pixels, base color 50/50/50, EFFECT_NONE. -/
def bootState (p : Prefs) : SysState :=
  { numPixels := 500
    ledMask := []
    ledPositions := []
    pixels := none
    hw := []
    baseR := 50
    baseG := 50
    baseB := 50
    currentEffect := .EFFECT_NONE
    effectStartTimeMs := 0
    prefs := p }

/-- The state-restoring prefix of setup() (lines between prefs.begin and
the Serial/WiFi/route/self-test glue): restore base color with defaults
50, loadLedPositionsFromStorage, re-read num_leds (default 0, accepted
when 1..8196, else the 500 default), then allocateStrip(numPixels) --
a second allocation that replaces every array just filled by the load.
fresh1 and fresh2 are the indeterminate heap contents handed to the two
allocations. -/
def setupRestore (s0 : SysState) (fresh1 fresh2 : Nat → Point) : Option SysState :=
  let s := { s0 with
    baseR := s0.prefs.bR.getD 50
    baseG := s0.prefs.bG.getD 50
    baseB := s0.prefs.bB.getD 50 }
  (loadLedPositionsFromStorage s fresh1).map fun s1 =>
    let savedNum := s1.prefs.num_leds.getD 0
    let target := if 1 ≤ savedNum ∧ savedNum ≤ 8196 then savedNum else 500
    allocateStrip s1 target fresh2

/-! ## HTTP handlers

Each handler takes the decoded request body as a small inductive whose
first two constructors are the empty-body and JSON-parse-error cases the
source checks first, and returns the HTTP status it sends. -/

/-- Body of POST /set_num_leds: no body, bad JSON, a document without an
int num field, or num itself. -/
inductive NumReq where
  | noBody
  | badJson
  | noNum
  | num (n : Int)
deriving DecidableEq, Repr

/-- String ledMaskToJsonString(): the object keyed "0".."n-1" over the
mask values, i.e. (up to JSON spelling) the mask list itself. -/
def ledMaskToJsonString (s : SysState) : List Bool := s.ledMask

/-- void handleSetNumLEDs(): 400 on no body / bad JSON / missing num /
num outside 1..8196 (all before any mutation); otherwise
allocateStrip((uint16_t)newNum), persist num_leds and led_state,
redrawPixels, 200. -/
def handleSetNumLEDs (s : SysState) (req : NumReq) (fresh : Nat → Point) :
    Option (SysState × Nat) :=
  match req with
  | .noBody => some (s, 400)
  | .badJson => some (s, 400)
  | .noNum => some (s, 400)
  | .num n =>
    if n ≤ 0 ∨ n > 8196 then
      some (s, 400)
    else
      let s1 := allocateStrip s n.toNat fresh
      let s2 := { s1 with prefs := { s1.prefs with
        num_leds := some s1.numPixels
        led_state := some (ledMaskToJsonString s1) } }
      (redrawPixels s2).map fun s3 => (s3, 200)

/-- Body of POST /effects/basecolor: fields r, g, b each absent or an
integer (the only JSON shapes these claims need; any other JSON type
behaves like an out-of-range integer under ArduinoJson's operator|). -/
inductive BaseColorReq where
  | noBody
  | badJson
  | obj (r g b : Option Int)
deriving DecidableEq, Repr

/-- ArduinoJson's value | default with a uint8_t default: the stored
value when the field holds an integer representable as uint8_t, else the
default (also for an absent field). -/
def jsonOrUChar (v : Option Int) (d : Nat) : Nat :=
  match v with
  | some n => if 0 ≤ n ∧ n ≤ 255 then n.toNat else d
  | none => d

/-- void handleSetBaseColor(): 400 on no body / bad JSON; otherwise
baseR = doc at r | baseR (same for g, b), persist the three updated
components to bR/bG/bB, redrawPixels, 200. (The source updates the three
globals and then stores exactly those updated values; here that sequence
is the single combined state update below.) -/
def handleSetBaseColor (s : SysState) (req : BaseColorReq) : Option (SysState × Nat) :=
  match req with
  | .noBody => some (s, 400)
  | .badJson => some (s, 400)
  | .obj r g b =>
    (redrawPixels { s with
        baseR := jsonOrUChar r s.baseR
        baseG := jsonOrUChar g s.baseG
        baseB := jsonOrUChar b s.baseB
        prefs := { s.prefs with
          bR := some (jsonOrUChar r s.baseR)
          bG := some (jsonOrUChar g s.baseG)
          bB := some (jsonOrUChar b s.baseB) } }).map fun s3 => (s3, 200)

/-- Body of POST /configure_leds: the parsed key/value pairs in document
order (values already coerced to bool, as kv.value().as of bool does). -/
inductive ConfigReq where
  | noBody
  | badJson
  | obj (entries : List (String × Bool))
deriving DecidableEq, Repr

/-- The for (JsonPair kv : obj) loop of handleConfigureLEDs:
int idx = atoi(key); if (idx >= 0 && idx < numPixels) ledMask[idx] = val. -/
def configLoop : List (String × Bool) → SysState → SysState
  | [], s => s
  | (k, v) :: rest, s =>
    let idx := atoi k
    if 0 ≤ idx ∧ idx < (s.numPixels : Int) then
      configLoop rest { s with ledMask := s.ledMask.set idx.toNat v }
    else
      configLoop rest s

/-- void handleConfigureLEDs(): 400 on no body / bad JSON; otherwise run
the key loop, redrawPixels, 200. -/
def handleConfigureLEDs (s : SysState) (req : ConfigReq) : Option (SysState × Nat) :=
  match req with
  | .noBody => some (s, 400)
  | .badJson => some (s, 400)
  | .obj entries => (redrawPixels (configLoop entries s)).map fun s3 => (s3, 200)

/-! ## Supporting lemmas -/

theorem paint_length (mask : List Bool) (f : Nat → Color) :
    ∀ n buf, (paint mask f n buf).length = buf.length := by
  intro n
  induction n with
  | zero => intro buf; rfl
  | succ n ih => intro buf; simp [paint, neoSet, ih]

theorem paint_getElem?_lt (mask : List Bool) (f : Nat → Color) :
    ∀ n buf j, j < n → j < buf.length →
      (paint mask f n buf)[j]? =
        some (if mask.getD j false then f j else Color.black) := by
  intro n
  induction n with
  | zero => intro buf j hj _; omega
  | succ n ih =>
    intro buf j hj hjb
    by_cases hjn : j = n
    · subst hjn
      simp only [paint, neoSet]
      rw [List.getElem?_set_self (by rw [paint_length]; omega)]
    · simp only [paint, neoSet]
      rw [List.getElem?_set_ne (by omega)]
      exact ih buf j (by omega) hjb

theorem paint_getElem?_ge (mask : List Bool) (f : Nat → Color) :
    ∀ n buf j, n ≤ j → (paint mask f n buf)[j]? = buf[j]? := by
  intro n
  induction n with
  | zero => intro buf j _; rfl
  | succ n ih =>
    intro buf j hj
    simp only [paint, neoSet]
    rw [List.getElem?_set_ne (by omega)]
    exact ih buf j (by omega)

theorem setPixelLoop_spec (f : Nat → Color) (s : SysState) (buf : List Color)
    (hpix : s.pixels = some buf) :
    ∀ n, n ≤ s.ledMask.length →
      setPixelLoop f n s = some { s with pixels := some (paint s.ledMask f n buf) } := by
  intro n hn
  induction n with
  | zero =>
    show some s = _
    rw [show paint s.ledMask f 0 buf = buf from rfl, ← hpix]
  | succ n ih =>
    have hstep := ih (by omega)
    have hmask : s.ledMask[n]? = some s.ledMask[n] :=
      List.getElem?_eq_getElem (by omega)
    have hgetD : s.ledMask[n]?.getD false = s.ledMask[n] := by rw [hmask]; rfl
    simp only [setPixelLoop, hstep, Option.some_bind, setPixelColor, hmask,
      Option.map_some', paint, neoSet, List.getD_eq_getElem?_getD, hgetD,
      Option.getD_some]

theorem redrawLoop_spec (s : SysState) (buf : List Color)
    (hpix : s.pixels = some buf) :
    ∀ n, n ≤ s.ledMask.length →
      redrawLoop n s =
        some { s with pixels := some (paint s.ledMask (fun _ => s.baseColor) n buf) } := by
  intro n hn
  induction n with
  | zero =>
    show some s = _
    rw [show paint s.ledMask (fun _ => s.baseColor) 0 buf = buf from rfl, ← hpix]
  | succ n ih =>
    have hstep := ih (by omega)
    have hmask : s.ledMask[n]? = some s.ledMask[n] :=
      List.getElem?_eq_getElem (by omega)
    have hgetD : s.ledMask[n]?.getD false = s.ledMask[n] := by rw [hmask]; rfl
    simp only [redrawLoop, hstep, Option.some_bind, hmask, Option.map_some',
      paint, neoSet, List.getD_eq_getElem?_getD, hgetD, Option.getD_some,
      SysState.baseColor]

theorem redrawPixels_spec (s : SysState) (buf : List Color)
    (hpix : s.pixels = some buf) (hm : s.numPixels ≤ s.ledMask.length) :
    redrawPixels s =
      some { s with
        pixels := some (paint s.ledMask (fun _ => s.baseColor) s.numPixels buf)
        hw := paint s.ledMask (fun _ => s.baseColor) s.numPixels buf } := by
  unfold redrawPixels
  rw [hpix]
  rw [redrawLoop_spec s buf hpix s.numPixels hm]
  simp [showPixelColors]

theorem neoSet_getElem?_self (buf : List Color) (i : Nat) (c : Color)
    (h : i < buf.length) : (neoSet buf i c)[i]? = some c := by
  simp [neoSet, List.getElem?_set_self h]

theorem neoSet_getElem?_ne (buf : List Color) (i j : Nat) (c : Color)
    (h : i ≠ j) : (neoSet buf i c)[j]? = buf[j]? := by
  simp [neoSet, List.getElem?_set_ne h]

theorem redrawPixels_fields (s : SysState) (buf : List Color)
    (hpix : s.pixels = some buf) (hm : s.numPixels ≤ s.ledMask.length) :
    ∃ s2, redrawPixels s = some s2
      ∧ s2.numPixels = s.numPixels ∧ s2.ledMask = s.ledMask
      ∧ s2.ledPositions = s.ledPositions ∧ s2.prefs = s.prefs
      ∧ s2.baseR = s.baseR ∧ s2.baseG = s.baseG ∧ s2.baseB = s.baseB
      ∧ s2.currentEffect = s.currentEffect
      ∧ s2.effectStartTimeMs = s.effectStartTimeMs
      ∧ ∃ buf2, s2.pixels = some buf2 ∧ s2.hw = buf2 ∧ buf2.length = buf.length
          ∧ ∀ i, i < s.numPixels → i < buf.length →
              buf2[i]? = some (if s.ledMask.getD i false then s.baseColor
                               else Color.black) :=
  ⟨_, redrawPixels_spec s buf hpix hm, rfl, rfl, rfl, rfl, rfl, rfl, rfl, rfl, rfl,
    ⟨paint s.ledMask (fun _ => s.baseColor) s.numPixels buf, rfl, rfl,
      paint_length _ _ _ _,
      fun i h1 h2 => paint_getElem?_lt _ _ _ _ i h1 h2⟩⟩

theorem stopAllEffects_spec (s : SysState) (buf : List Color)
    (hpix : s.pixels = some buf) (hm : s.numPixels ≤ s.ledMask.length) :
    stopAllEffects s =
      some { s with
        currentEffect := EffectType.EFFECT_NONE
        effectStartTimeMs := 0
        prefs := { s.prefs with last_effect := some 0 }
        pixels := some (paint s.ledMask (fun _ => s.baseColor) s.numPixels buf)
        hw := paint s.ledMask (fun _ => s.baseColor) s.numPixels buf } := by
  rw [show stopAllEffects s =
      (setPixelLoop (fun _ => s.baseColor) s.numPixels
        { s with
          currentEffect := EffectType.EFFECT_NONE
          effectStartTimeMs := 0
          prefs := { s.prefs with last_effect := some 0 } }).map showPixelColors from rfl]
  rw [setPixelLoop_spec (fun _ => s.baseColor)
      { s with
        currentEffect := EffectType.EFFECT_NONE
        effectStartTimeMs := 0
        prefs := { s.prefs with last_effect := some 0 } } buf hpix s.numPixels hm]
  simp only [Option.map_some', showPixelColors]

theorem updateBlinkEffect_spec (s : SysState) (buf : List Color)
    (hpix : s.pixels = some buf) (hm : s.numPixels ≤ s.ledMask.length) :
    updateBlinkEffect s now =
      some { s with
        pixels := some (paint s.ledMask
          (fun _ => if blinkOn (elapsedSince now s.effectStartTimeMs) then s.baseColor
                    else ⟨0, 0, 0⟩) s.numPixels buf)
        hw := paint s.ledMask
          (fun _ => if blinkOn (elapsedSince now s.effectStartTimeMs) then s.baseColor
                    else ⟨0, 0, 0⟩) s.numPixels buf } := by
  rw [show updateBlinkEffect s now =
      (setPixelLoop
        (fun _ => if blinkOn (elapsedSince now s.effectStartTimeMs) then s.baseColor
                  else ⟨0, 0, 0⟩) s.numPixels s).map showPixelColors from rfl]
  rw [setPixelLoop_spec _ s buf hpix s.numPixels hm]
  simp only [Option.map_some', showPixelColors]

theorem atoiDigits_of_not_digit {c : Char} (cs : List Char) (acc : Nat)
    (h : isDigitChar c = false) : atoiDigits (c :: cs) acc = acc := by
  simp [atoiDigits, h]

theorem atoi_of_noLeadingDigit (k : String) (h : noLeadingDigit k = true) :
    atoi k = 0 := by
  unfold noLeadingDigit at h
  unfold atoi
  cases hds : k.data.dropWhile isSpaceChar with
  | nil => rfl
  | cons c cs =>
    rw [hds] at h
    replace h : (if c = '-' ∨ c = '+' then headNotDigit cs
      else !isDigitChar c) = true := h
    show (if c = '-' then -(atoiDigits cs 0 : Int)
      else if c = '+' then (atoiDigits cs 0 : Int)
      else (atoiDigits (c :: cs) 0 : Int)) = 0
    by_cases hc : c = '-' ∨ c = '+'
    · rw [if_pos hc] at h
      have hrest : atoiDigits cs 0 = 0 := by
        cases cs with
        | nil => rfl
        | cons d ds =>
          replace h : (!isDigitChar d) = true := h
          have hd : isDigitChar d = false := by
            cases hdd : isDigitChar d
            · rfl
            · rw [hdd] at h; simp at h
          exact atoiDigits_of_not_digit ds 0 hd
      rcases hc with hc | hc <;> subst hc <;> simp [hrest]
    · rw [if_neg hc] at h
      have hcd : isDigitChar c = false := by
        cases hdd : isDigitChar c
        · rfl
        · rw [hdd] at h; simp at h
      have hc1 : ¬c = '-' := fun hx => hc (Or.inl hx)
      have hc2 : ¬c = '+' := fun hx => hc (Or.inr hx)
      rw [if_neg hc1, if_neg hc2, atoiDigits_of_not_digit cs 0 hcd]
      rfl

theorem jsonOrUChar_none (d : Nat) : jsonOrUChar none d = d := rfl

theorem jsonOrUChar_inRange (v : Int) (d : Nat) (h1 : 0 ≤ v) (h2 : v ≤ 255) :
    jsonOrUChar (some v) d = v.toNat := by
  simp [jsonOrUChar, h1, h2]

theorem jsonOrUChar_outRange (v : Int) (d : Nat) (h : ¬(0 ≤ v ∧ v ≤ 255)) :
    jsonOrUChar (some v) d = d := by
  simp only [jsonOrUChar, if_neg h]

/-! ## Concrete states used by the counterexamples and witnesses -/

/-- An NVS namespace with every key the sketch uses absent. -/
def emptyPrefs : Prefs :=
  { last_effect := none, num_leds := none, led_positions := none,
    led_state := none, bR := none, bG := none, bB := none }

/-- A small running system: one LED, masked on, driver allocated and
black, base color 50/50/50, Blink running. -/
def demoBlink : SysState :=
  { numPixels := 1, ledMask := [true], ledPositions := [⟨0, 0, 0⟩],
    pixels := some [Color.black], hw := [Color.black], baseR := 50, baseG := 50,
    baseB := 50, currentEffect := .EFFECT_BLINK, effectStartTimeMs := 5,
    prefs := { emptyPrefs with last_effect := some 1 } }

/-- One LED, masked on, idle. -/
def demoIdle : SysState :=
  { numPixels := 1, ledMask := [true], ledPositions := [⟨0, 0, 0⟩],
    pixels := some [Color.black], hw := [Color.black], baseR := 50, baseG := 50,
    baseB := 50, currentEffect := .EFFECT_NONE, effectStartTimeMs := 0,
    prefs := emptyPrefs }

/-- Two LEDs: index 0 masked on, index 1 masked off. -/
def demoMask : SysState :=
  { numPixels := 2, ledMask := [true, false], ledPositions := [⟨0, 0, 0⟩, ⟨0, 0, 0⟩],
    pixels := some [⟨3, 3, 3⟩, ⟨4, 4, 4⟩], hw := [], baseR := 10, baseG := 20,
    baseB := 30, currentEffect := .EFFECT_NONE, effectStartTimeMs := 0,
    prefs := emptyPrefs }

/-- Three LEDs, all masked on, used against out-of-bounds indices. -/
def demoThree : SysState :=
  { numPixels := 3, ledMask := [true, true, true],
    ledPositions := [⟨0, 0, 0⟩, ⟨0, 0, 0⟩, ⟨0, 0, 0⟩],
    pixels := some [Color.black, Color.black, Color.black], hw := [],
    baseR := 50, baseG := 50, baseB := 50, currentEffect := .EFFECT_NONE,
    effectStartTimeMs := 0, prefs := emptyPrefs }

/-- Thirteen LEDs, all masked off (enough room for index 12). -/
def demoThirteen : SysState :=
  { numPixels := 13, ledMask := List.replicate 13 false,
    ledPositions := List.replicate 13 ⟨0, 0, 0⟩,
    pixels := some (List.replicate 13 Color.black), hw := [], baseR := 50,
    baseG := 50, baseB := 50, currentEffect := .EFFECT_NONE,
    effectStartTimeMs := 0, prefs := emptyPrefs }

/-- NVS contents holding a two-entry position mapping (and a stale
num_leds), as left behind by POST /set_led_positions. -/
def demoStoredPrefs : Prefs :=
  { emptyPrefs with
    num_leds := some 300
    led_positions := some [("0", ⟨1, 2, 3⟩), ("1", ⟨4, 5, 6⟩)] }

/-! ## The claims -/

/-- C1: the claim says the Blink effect is ON exactly when
(elapsed/1000) mod 2 == 0 (1 Hz, 50 percent duty). The current
revision's condition ((elapsed / 1000) % (secs_on + secs_off)) <=
secs_on with secs_on = secs_off = 1 is a comparison of a value in 0..1
against 1, so it holds at EVERY elapsed time: the strip never turns off.
In particular the code is ON at elapsed = 1000 and 1500 where the claim
(and the earlier revision's condition, blinkOnV0) says OFF. -/
theorem C1_blink_code_bug :
    (∀ elapsed : Nat, blinkOn elapsed = true)
      ∧ blinkOn 1000 = true ∧ blinkOn 1500 = true
      ∧ blinkOnV0 1000 = false ∧ blinkOnV0 1500 = false
      ∧ blinkOnV0 0 = true ∧ blinkOnV0 500 = true ∧ blinkOnV0 2000 = true := by
  refine ⟨fun elapsed => ?_, by decide, by decide, by decide, by decide,
    by decide, by decide, by decide⟩
  simp only [blinkOn, secsOn, secsOff, decide_eq_true_eq]
  omega

/-- C3 counterexample: the effect state does not range over seven
variants; the source enum EffectType has exactly the three constructors
EFFECT_NONE, EFFECT_BLINK, EFFECT_ALL_ON (the sweep effects of the claim
do not exist in the code). -/
theorem C3_counterexample :
    Fintype.card EffectType = 3 ∧ Fintype.card EffectType ≠ 7 := by
  constructor <;> decide

/-- C3 amended: the effect state ranges over exactly the closed set of
THREE variants, None, Blink and AllOn, and the per-tick dispatch in
loop() defines behaviour for every one of them: Blink runs
updateBlinkEffect and the other two do nothing. -/
theorem C3_state_machine_spec :
    (∀ e : EffectType,
        e = .EFFECT_NONE ∨ e = .EFFECT_BLINK ∨ e = .EFFECT_ALL_ON)
      ∧ Fintype.card EffectType = 3
      ∧ (∀ (s : SysState) (now : Nat),
          loopTick s now =
            if s.currentEffect = .EFFECT_BLINK then updateBlinkEffect s now
            else some s) := by
  refine ⟨fun e => by cases e <;> simp, by decide, fun s now => ?_⟩
  cases h : s.currentEffect <;> simp [loopTick, h]

/-- C5: the claim says an out-of-bounds setPixel is a total no-op that
reads and writes no per-LED state. The source has no index bounds check
at all: on a 3-LED strip, setPixelColor(3, 7,7,7) evaluates
ledMask[3], an out-of-bounds read (undefined behavior), before the strip
driver's internal bounds check drops the buffer write. The embedding
returns none exactly on that out-of-bounds mask read. -/
theorem C5_oob_mask_read :
    setPixelColor demoThree 3 ⟨7, 7, 7⟩ = none
      ∧ demoThree.numPixels = 3
      ∧ demoThree.ledMask[3]? = none := by
  refine ⟨?_, rfl, rfl⟩
  decide

/-- C6 counterexample: resize does not initialize positions to the
origin. allocateStrip allocates the position array with new
Point[numPixels], which leaves every entry indeterminate: with fresh heap
contents (1,2,3) at every slot, the positions after resize(2) are
(1,2,3), not the origin. -/
theorem C6_counterexample :
    (allocateStrip (bootState emptyPrefs) 2 (fun _ => ⟨1, 2, 3⟩)).ledPositions
        = [⟨1, 2, 3⟩, ⟨1, 2, 3⟩]
      ∧ (⟨1, 2, 3⟩ : Point) ≠ ⟨0, 0, 0⟩ := by
  constructor
  · decide
  · decide

/-- C6 amended: immediately after resize(n) the LED count equals n,
every mask entry is false, the frame buffer is n black pixels, and no
previous mask or position values survive -- but the positions are NOT
the origin: they are whatever the fresh allocation happens to contain
(new Point[n] performs no initialization). -/
theorem C6_resize_spec (s : SysState) (n : Nat) (fresh : Nat → Point) :
    (allocateStrip s n fresh).numPixels = n
      ∧ (allocateStrip s n fresh).ledMask = List.replicate n false
      ∧ (∀ i, i < n → (allocateStrip s n fresh).ledMask[i]? = some false)
      ∧ (allocateStrip s n fresh).ledPositions = (List.range n).map fresh
      ∧ (allocateStrip s n fresh).pixels = some (List.replicate n Color.black)
      ∧ (allocateStrip s n fresh).hw = List.replicate n Color.black := by
  refine ⟨rfl, rfl, fun i hi => ?_, rfl, rfl, rfl⟩
  show (List.replicate n false)[i]? = some false
  rw [List.getElem?_replicate_of_lt hi]

/-- C7: the claim says restored positions remain in effect once
initialization completes. Starting from NVS holding the two-entry
mapping 0 to (1,2,3) and 1 to (4,5,6), loadLedPositionsFromStorage does
restore the positions (first conjunct), but setup() then calls
allocateStrip(numPixels) a second time, which frees and reallocates the
position array uninitialized: with second-allocation heap contents
(7,7,7), the state after setup holds (7,7,7) twice, and the restored
values are gone. Only the count (2, the mapping size, re-read through
the num_leds key the load updated) survives. -/
theorem C7_positions_wiped :
    ((loadLedPositionsFromStorage (bootState demoStoredPrefs) (fun _ => ⟨9, 9, 9⟩)).map
        SysState.ledPositions = some [⟨1, 2, 3⟩, ⟨4, 5, 6⟩])
      ∧ (∃ sF, setupRestore (bootState demoStoredPrefs)
            (fun _ => ⟨9, 9, 9⟩) (fun _ => ⟨7, 7, 7⟩) = some sF
          ∧ sF.numPixels = 2
          ∧ sF.ledPositions = [⟨7, 7, 7⟩, ⟨7, 7, 7⟩]
          ∧ sF.ledPositions ≠ [⟨1, 2, 3⟩, ⟨4, 5, 6⟩]) := by
  refine ⟨by decide, ⟨_, rfl, by decide, by decide, by decide⟩⟩

/-- C2 counterexample: on a one-LED strip with the LED masked on, base
color (50,50,50) and Blink running, starting the AllOn effect leaves the
frame buffer and the flushed strip at the BASE color (50,50,50), not
black: the stop phase of startEffect paints base color (the source's
TODO comment says this equals the all-on button). (50,50,50) is not
black, refuting "resets all LEDs to black (not base color)". -/
theorem C2_counterexample :
    ∃ sF, startEffect demoBlink .EFFECT_ALL_ON 777 = some sF
      ∧ sF.pixels = some [⟨50, 50, 50⟩]
      ∧ sF.hw = [⟨50, 50, 50⟩]
      ∧ demoBlink.baseColor = ⟨50, 50, 50⟩
      ∧ (⟨50, 50, 50⟩ : Color) ≠ Color.black :=
  ⟨_, rfl, by decide, by decide, by decide, by decide⟩

/-- C2 amended: startEffect(effect) first stops the running effect by
setting every masked-on LED to the BASE color and every masked-off LED
to black (not an all-black reset), flushing that frame to the strip, and
persisting the effect id None; it then sets the state to the new effect,
resets startTime to now, and persists the new effect id. stop() performs
the same base-color reset. -/
theorem C2_start_effect_spec (s : SysState) (buf : List Color) (e : EffectType)
    (now : Nat) (hpix : s.pixels = some buf)
    (hm : s.numPixels ≤ s.ledMask.length) :
    ∃ st, stopAllEffects s = some st
      ∧ startEffect s e now = some { st with
          currentEffect := e
          effectStartTimeMs := now
          prefs := { st.prefs with last_effect := some e.toUInt } }
      ∧ st.currentEffect = .EFFECT_NONE
      ∧ st.effectStartTimeMs = 0
      ∧ st.prefs.last_effect = some EffectType.EFFECT_NONE.toUInt
      ∧ st.ledMask = s.ledMask
      ∧ st.numPixels = s.numPixels
      ∧ ∃ buf2, st.pixels = some buf2 ∧ st.hw = buf2 ∧ buf2.length = buf.length
          ∧ ∀ i, i < s.numPixels → i < buf.length →
              buf2[i]? = some (if s.ledMask.getD i false then s.baseColor
                               else Color.black) := by
  refine ⟨_, stopAllEffects_spec s buf hpix hm, ?_, rfl, rfl, rfl, rfl, rfl,
    ⟨paint s.ledMask (fun _ => s.baseColor) s.numPixels buf, rfl, rfl,
      paint_length _ _ _ _,
      fun i h1 h2 => paint_getElem?_lt _ _ _ _ i h1 h2⟩⟩
  unfold startEffect
  rw [stopAllEffects_spec s buf hpix hm]
  rfl

/-- C2 witness: the amended transition evaluated on the one-LED demo
state with the AllOn effect at now = 777. -/
theorem C2_start_effect_witness :
    demoBlink.pixels = some [Color.black]
      ∧ demoBlink.numPixels ≤ demoBlink.ledMask.length
      ∧ ∃ st, stopAllEffects demoBlink = some st
          ∧ startEffect demoBlink .EFFECT_ALL_ON 777 = some { st with
              currentEffect := .EFFECT_ALL_ON
              effectStartTimeMs := 777
              prefs := { st.prefs with
                last_effect := some EffectType.EFFECT_ALL_ON.toUInt } }
          ∧ st.currentEffect = .EFFECT_NONE
          ∧ st.effectStartTimeMs = 0
          ∧ st.prefs.last_effect = some EffectType.EFFECT_NONE.toUInt
          ∧ st.ledMask = demoBlink.ledMask
          ∧ st.numPixels = demoBlink.numPixels
          ∧ ∃ buf2, st.pixels = some buf2 ∧ st.hw = buf2
              ∧ buf2.length = [Color.black].length
              ∧ ∀ i, i < demoBlink.numPixels → i < [Color.black].length →
                  buf2[i]? = some (if demoBlink.ledMask.getD i false
                                   then demoBlink.baseColor else Color.black) :=
  ⟨rfl, by decide,
    C2_start_effect_spec demoBlink [Color.black] .EFFECT_ALL_ON 777 rfl (by decide)⟩

/-- C4: for an in-bounds index, setPixelColor writes black when the mask
is off regardless of the requested color, writes the requested color
when the mask is on, and leaves other pixels alone; and redrawPixels
puts black at every masked-off index and the base color at every
masked-on index, then flushes. -/
theorem C4_mask_dominates (s : SysState) (buf : List Color) (i : Nat) (c : Color)
    (hpix : s.pixels = some buf) (hb : buf.length = s.numPixels)
    (hml : s.ledMask.length = s.numPixels) (hi : i < s.numPixels) :
    (∃ s2 buf2, setPixelColor s i c = some s2 ∧ s2.pixels = some buf2
        ∧ (s.ledMask.getD i false = true → buf2[i]? = some c)
        ∧ (s.ledMask.getD i false = false → buf2[i]? = some Color.black)
        ∧ ∀ j, j ≠ i → buf2[j]? = buf[j]?)
      ∧ (∃ s3 buf3, redrawPixels s = some s3 ∧ s3.pixels = some buf3
          ∧ s3.hw = buf3
          ∧ (s.ledMask.getD i false = false → buf3[i]? = some Color.black)
          ∧ (s.ledMask.getD i false = true → buf3[i]? = some s.baseColor)) := by
  have him : i < s.ledMask.length := by omega
  have hib : i < buf.length := by omega
  have hmask : s.ledMask[i]? = some s.ledMask[i] := List.getElem?_eq_getElem him
  have hgetD : s.ledMask.getD i false = s.ledMask[i] := by
    rw [List.getD_eq_getElem?_getD, hmask]; rfl
  constructor
  · refine ⟨{ s with
        pixels := some (neoSet buf i (if s.ledMask[i] then c else Color.black)) },
      neoSet buf i (if s.ledMask[i] then c else Color.black), ?_, rfl, ?_, ?_, ?_⟩
    · simp only [setPixelColor, hpix, hmask, Option.map_some']
    · intro h
      rw [hgetD] at h
      rw [neoSet_getElem?_self buf i _ hib, h]
      simp
    · intro h
      rw [hgetD] at h
      rw [neoSet_getElem?_self buf i _ hib, h]
      simp
    · intro j hj
      exact neoSet_getElem?_ne buf i j _ (fun hx => hj hx.symm)
  · refine ⟨_, paint s.ledMask (fun _ => s.baseColor) s.numPixels buf,
      redrawPixels_spec s buf hpix (by omega), rfl, rfl, ?_, ?_⟩
    · intro h
      rw [paint_getElem?_lt _ _ _ _ _ hi hib, h]
      simp
    · intro h
      rw [paint_getElem?_lt _ _ _ _ _ hi hib, h]
      simp

/-- C4 witness: the mask-dominates property evaluated on a two-LED
strip whose second LED (index 1) is masked off, with requested color
(9,9,9). -/
theorem C4_mask_dominates_witness :
    demoMask.pixels = some [⟨3, 3, 3⟩, ⟨4, 4, 4⟩]
      ∧ [(⟨3, 3, 3⟩ : Color), ⟨4, 4, 4⟩].length = demoMask.numPixels
      ∧ demoMask.ledMask.length = demoMask.numPixels
      ∧ 1 < demoMask.numPixels
      ∧ ((∃ s2 buf2, setPixelColor demoMask 1 ⟨9, 9, 9⟩ = some s2
            ∧ s2.pixels = some buf2
            ∧ (demoMask.ledMask.getD 1 false = true → buf2[1]? = some ⟨9, 9, 9⟩)
            ∧ (demoMask.ledMask.getD 1 false = false → buf2[1]? = some Color.black)
            ∧ ∀ j, j ≠ 1 → buf2[j]? = [(⟨3, 3, 3⟩ : Color), ⟨4, 4, 4⟩][j]?)
          ∧ (∃ s3 buf3, redrawPixels demoMask = some s3 ∧ s3.pixels = some buf3
              ∧ s3.hw = buf3
              ∧ (demoMask.ledMask.getD 1 false = false → buf3[1]? = some Color.black)
              ∧ (demoMask.ledMask.getD 1 false = true →
                  buf3[1]? = some demoMask.baseColor))) :=
  ⟨rfl, rfl, rfl, by decide,
    C4_mask_dominates demoMask [⟨3, 3, 3⟩, ⟨4, 4, 4⟩] 1 ⟨9, 9, 9⟩ rfl rfl rfl
      (by decide)⟩

/-- C8: POST /set_num_leds rejects a missing body, unparsable JSON, a
missing or non-integer num, and num outside 1..8196 with status 400 and
the state returned untouched; with num in 1..8196 it reallocates the
strip to num LEDs, persists num_leds and led_state, and answers 200. -/
theorem C8_set_num_leds (s : SysState) (fresh : Nat → Point) (n m : Int)
    (hn1 : 1 ≤ n) (hn2 : n ≤ 8196) (hmr : m ≤ 0 ∨ m > 8196) :
    handleSetNumLEDs s .noBody fresh = some (s, 400)
      ∧ handleSetNumLEDs s .badJson fresh = some (s, 400)
      ∧ handleSetNumLEDs s .noNum fresh = some (s, 400)
      ∧ handleSetNumLEDs s (.num m) fresh = some (s, 400)
      ∧ ∃ s2, handleSetNumLEDs s (.num n) fresh = some (s2, 200)
          ∧ s2.numPixels = n.toNat
          ∧ s2.ledMask = List.replicate n.toNat false
          ∧ s2.ledPositions = (List.range n.toNat).map fresh
          ∧ s2.prefs.num_leds = some n.toNat
          ∧ s2.prefs.led_state = some (List.replicate n.toNat false) := by
  refine ⟨rfl, rfl, rfl, ?_, ?_⟩
  · simp only [handleSetNumLEDs, if_pos hmr]
  · have hcond : ¬(n ≤ 0 ∨ n > 8196) := by omega
    obtain ⟨s2, heq, hnum, hmask2, hpos2, hprefs, _, _, _, _, _, _⟩ :=
      redrawPixels_fields
        { allocateStrip s n.toNat fresh with prefs :=
            { (allocateStrip s n.toNat fresh).prefs with
              num_leds := some (allocateStrip s n.toNat fresh).numPixels
              led_state := some (ledMaskToJsonString (allocateStrip s n.toNat fresh)) } }
        (List.replicate n.toNat Color.black) rfl (by simp [allocateStrip])
    refine ⟨s2, ?_, hnum.trans rfl, hmask2.trans rfl, hpos2.trans rfl,
      (congrArg Prefs.num_leds hprefs).trans rfl,
      (congrArg Prefs.led_state hprefs).trans rfl⟩
    simp only [handleSetNumLEDs, if_neg hcond]
    rw [heq]
    rfl

/-- C8 witness: /set_num_leds evaluated on the one-LED demo state with
the valid count 24 and the invalid count 0. -/
theorem C8_set_num_leds_witness :
    ((1 : Int) ≤ 24 ∧ (24 : Int) ≤ 8196 ∧ ((0 : Int) ≤ 0 ∨ (0 : Int) > 8196))
      ∧ handleSetNumLEDs demoIdle .noBody (fun _ => ⟨0, 0, 0⟩) = some (demoIdle, 400)
      ∧ handleSetNumLEDs demoIdle .badJson (fun _ => ⟨0, 0, 0⟩) = some (demoIdle, 400)
      ∧ handleSetNumLEDs demoIdle .noNum (fun _ => ⟨0, 0, 0⟩) = some (demoIdle, 400)
      ∧ handleSetNumLEDs demoIdle (.num 0) (fun _ => ⟨0, 0, 0⟩) = some (demoIdle, 400)
      ∧ ∃ s2, handleSetNumLEDs demoIdle (.num 24) (fun _ => ⟨0, 0, 0⟩) = some (s2, 200)
          ∧ s2.numPixels = 24
          ∧ s2.ledMask = List.replicate 24 false
          ∧ s2.ledPositions = (List.range 24).map (fun _ => ⟨0, 0, 0⟩)
          ∧ s2.prefs.num_leds = some 24
          ∧ s2.prefs.led_state = some (List.replicate 24 false) := by
  have h := C8_set_num_leds demoIdle (fun _ => ⟨0, 0, 0⟩) 24 0
    (by decide) (by decide) (by decide)
  exact ⟨⟨by decide, by decide, by decide⟩, h.1, h.2.1, h.2.2.1, h.2.2.2.1, h.2.2.2.2⟩

/-- C9 counterexample: the claim says each base-color component changes
to the supplied value exactly when the field is present. With the field
r present holding 300 (not representable as uint8_t), ArduinoJson's
value-or-default keeps the OLD value: the handler answers 200 but baseR
stays 50, not 300. -/
theorem C9_counterexample :
    ∃ sF, handleSetBaseColor demoIdle (.obj (some 300) none none) = some (sF, 200)
      ∧ demoIdle.baseR = 50
      ∧ sF.baseR = 50
      ∧ sF.baseR ≠ 300 :=
  ⟨_, rfl, rfl, by decide, by decide⟩

/-- C9 amended: each base-color component changes to the supplied value
exactly when the field is present AND holds an integer representable as
uint8_t (0..255); an absent field, and a present but out-of-range one,
keep the previous value. Besides the base color (and the recomputed,
reflushed frame) no core state changes, and the resulting color is
persisted to the bR/bG/bB keys. -/
theorem C9_basecolor_spec (s : SysState) (buf : List Color) (r g b : Option Int)
    (hpix : s.pixels = some buf) (hm : s.numPixels ≤ s.ledMask.length) :
    ∃ s2, handleSetBaseColor s (.obj r g b) = some (s2, 200)
      ∧ s2.baseR = jsonOrUChar r s.baseR
      ∧ s2.baseG = jsonOrUChar g s.baseG
      ∧ s2.baseB = jsonOrUChar b s.baseB
      ∧ (r = none → s2.baseR = s.baseR)
      ∧ (∀ v, r = some v → 0 ≤ v → v ≤ 255 → s2.baseR = v.toNat)
      ∧ (∀ v, r = some v → ¬(0 ≤ v ∧ v ≤ 255) → s2.baseR = s.baseR)
      ∧ (g = none → s2.baseG = s.baseG)
      ∧ (∀ v, g = some v → 0 ≤ v → v ≤ 255 → s2.baseG = v.toNat)
      ∧ (∀ v, g = some v → ¬(0 ≤ v ∧ v ≤ 255) → s2.baseG = s.baseG)
      ∧ (b = none → s2.baseB = s.baseB)
      ∧ (∀ v, b = some v → 0 ≤ v → v ≤ 255 → s2.baseB = v.toNat)
      ∧ (∀ v, b = some v → ¬(0 ≤ v ∧ v ≤ 255) → s2.baseB = s.baseB)
      ∧ s2.numPixels = s.numPixels ∧ s2.ledMask = s.ledMask
      ∧ s2.ledPositions = s.ledPositions
      ∧ s2.currentEffect = s.currentEffect
      ∧ s2.effectStartTimeMs = s.effectStartTimeMs
      ∧ s2.prefs.bR = some s2.baseR ∧ s2.prefs.bG = some s2.baseG
      ∧ s2.prefs.bB = some s2.baseB
      ∧ s2.prefs.num_leds = s.prefs.num_leds
      ∧ s2.prefs.led_positions = s.prefs.led_positions
      ∧ s2.prefs.led_state = s.prefs.led_state
      ∧ s2.prefs.last_effect = s.prefs.last_effect := by
  obtain ⟨s2, heq, hnum, hmask2, hpos2, hprefs, hbr, hbg, hbb, heff, hts, _⟩ :=
    redrawPixels_fields
      { s with
        baseR := jsonOrUChar r s.baseR
        baseG := jsonOrUChar g s.baseG
        baseB := jsonOrUChar b s.baseB
        prefs := { s.prefs with
          bR := some (jsonOrUChar r s.baseR)
          bG := some (jsonOrUChar g s.baseG)
          bB := some (jsonOrUChar b s.baseB) } }
      buf hpix hm
  refine ⟨s2, ?_, hbr.trans rfl, hbg.trans rfl, hbb.trans rfl,
    ?_, ?_, ?_, ?_, ?_, ?_, ?_, ?_, ?_,
    hnum.trans rfl, hmask2.trans rfl, hpos2.trans rfl, heff.trans rfl,
    hts.trans rfl,
    (congrArg Prefs.bR hprefs).trans (congrArg some (hbr.trans rfl)).symm,
    (congrArg Prefs.bG hprefs).trans (congrArg some (hbg.trans rfl)).symm,
    (congrArg Prefs.bB hprefs).trans (congrArg some (hbb.trans rfl)).symm,
    (congrArg Prefs.num_leds hprefs).trans rfl,
    (congrArg Prefs.led_positions hprefs).trans rfl,
    (congrArg Prefs.led_state hprefs).trans rfl,
    (congrArg Prefs.last_effect hprefs).trans rfl⟩
  · simp only [handleSetBaseColor]
    rw [heq]
    rfl
  · intro h
    subst h
    exact hbr.trans rfl
  · intro v hv h1 h2
    subst hv
    exact (hbr.trans rfl).trans (jsonOrUChar_inRange v s.baseR h1 h2)
  · intro v hv h1
    subst hv
    exact (hbr.trans rfl).trans (jsonOrUChar_outRange v s.baseR h1)
  · intro h
    subst h
    exact hbg.trans rfl
  · intro v hv h1 h2
    subst hv
    exact (hbg.trans rfl).trans (jsonOrUChar_inRange v s.baseG h1 h2)
  · intro v hv h1
    subst hv
    exact (hbg.trans rfl).trans (jsonOrUChar_outRange v s.baseG h1)
  · intro h
    subst h
    exact hbb.trans rfl
  · intro v hv h1 h2
    subst hv
    exact (hbb.trans rfl).trans (jsonOrUChar_inRange v s.baseB h1 h2)
  · intro v hv h1
    subst hv
    exact (hbb.trans rfl).trans (jsonOrUChar_outRange v s.baseB h1)

/-- C9 witness: the base-color update evaluated on the one-LED demo
state with r = 7 (present, in range: updated), g absent (kept) and
b = 300 (present, out of range: kept). -/
theorem C9_basecolor_witness :
    demoIdle.pixels = some [Color.black]
      ∧ demoIdle.numPixels ≤ demoIdle.ledMask.length
      ∧ ∃ s2, handleSetBaseColor demoIdle (.obj (some 7) none (some 300))
            = some (s2, 200)
          ∧ s2.baseR = 7 ∧ s2.baseG = 50 ∧ s2.baseB = 50
          ∧ s2.ledMask = demoIdle.ledMask
          ∧ s2.prefs.bR = some 7 ∧ s2.prefs.bG = some 50
          ∧ s2.prefs.bB = some 50 := by
  obtain ⟨s2, heq, hbr, hbg, hbb, _, _, _, _, _, _, _, _, _, _, hmask, _, _, _,
    hbR, hbG, hbB, _, _, _, _⟩ :=
    C9_basecolor_spec demoIdle [Color.black] (some 7) none (some 300) rfl (by decide)
  refine ⟨rfl, by decide, s2, heq, ?_, ?_, ?_, hmask, ?_, ?_, ?_⟩
  · rw [hbr]; decide
  · rw [hbg]; decide
  · rw [hbb]; decide
  · rw [hbR, hbr]; decide
  · rw [hbG, hbg]; decide
  · rw [hbB, hbb]; decide

/-- C10 counterexample: the claim says every entry whose key is not a
decimal numeral sets LED 0's mask. The key "12abc" is not a decimal
numeral, yet atoi parses its leading digits to 12: on a 13-LED strip the
entry sets LED 12's mask to true and leaves LED 0 untouched (false). -/
theorem C10_counterexample :
    ∃ sF, handleConfigureLEDs demoThirteen (.obj [("12abc", true)]) = some (sF, 200)
      ∧ atoi "12abc" = 12
      ∧ sF.ledMask[0]? = some false
      ∧ sF.ledMask[12]? = some true :=
  ⟨_, rfl, by decide, by decide, by decide⟩

/-- C10 amended: /configure_leds parses every key with atoi, which takes
the leading digit run after optional whitespace and sign; a key with NO
leading digits (such as "abc") parses to 0 and sets LED 0's mask to the
entry's boolean value, while a key whose atoi value lies outside
[0, count) is ignored. -/
theorem C10_configure_spec (s : SysState) (buf : List Color) (k k2 : String)
    (v : Bool) (hpix : s.pixels = some buf)
    (hml : s.ledMask.length = s.numPixels) (hpos : 0 < s.numPixels)
    (hk : noLeadingDigit k = true)
    (hk2 : atoi k2 < 0 ∨ (s.numPixels : Int) ≤ atoi k2) :
    atoi k = 0
      ∧ (∃ s2, handleConfigureLEDs s (.obj [(k, v)]) = some (s2, 200)
          ∧ s2.ledMask[0]? = some v
          ∧ s2.numPixels = s.numPixels
          ∧ (∀ j, j ≠ 0 → s2.ledMask[j]? = s.ledMask[j]?))
      ∧ (∃ s3, handleConfigureLEDs s (.obj [(k2, v)]) = some (s3, 200)
          ∧ s3.ledMask = s.ledMask) := by
  have ha : atoi k = 0 := atoi_of_noLeadingDigit k hk
  refine ⟨ha, ?_, ?_⟩
  · have hcl : configLoop [(k, v)] s = { s with ledMask := s.ledMask.set 0 v } := by
      simp only [configLoop, ha]
      rw [if_pos ⟨le_refl (0 : Int), by exact_mod_cast hpos⟩]
      rfl
    obtain ⟨s2, heq, hnum, hmask2, _, _, _, _, _, _, _, _⟩ :=
      redrawPixels_fields { s with ledMask := s.ledMask.set 0 v } buf hpix
        (by simp only [List.length_set]; omega)
    refine ⟨s2, ?_, ?_, hnum.trans rfl, ?_⟩
    · show (redrawPixels (configLoop [(k, v)] s)).map (fun s3 => (s3, 200))
        = some (s2, 200)
      rw [hcl, heq]
      rfl
    · rw [hmask2]
      show (s.ledMask.set 0 v)[0]? = some v
      exact List.getElem?_set_self (by omega)
    · intro j hj
      rw [hmask2]
      show (s.ledMask.set 0 v)[j]? = s.ledMask[j]?
      exact List.getElem?_set_ne (fun hx => hj hx.symm)
  · have hcl2 : configLoop [(k2, v)] s = s := by
      simp only [configLoop]
      rw [if_neg (by intro hx; rcases hk2 with h | h <;> omega)]
    obtain ⟨s3, heq3, _, hmask3, _, _, _, _, _, _, _, _⟩ :=
      redrawPixels_fields s buf hpix (by omega)
    refine ⟨s3, ?_, hmask3⟩
    show (redrawPixels (configLoop [(k2, v)] s)).map (fun s3 => (s3, 200))
      = some (s3, 200)
    rw [hcl2, heq3]
    rfl

/-- C10 witness: /configure_leds evaluated on the 13-LED demo state with
the digit-free key "abc" (writes LED 0) and the out-of-range key "99999"
(ignored). -/
theorem C10_configure_witness :
    noLeadingDigit "abc" = true
      ∧ (atoi "99999" < 0 ∨ (demoThirteen.numPixels : Int) ≤ atoi "99999")
      ∧ atoi "abc" = 0
      ∧ (∃ s2, handleConfigureLEDs demoThirteen (.obj [("abc", true)]) = some (s2, 200)
          ∧ s2.ledMask[0]? = some true
          ∧ s2.numPixels = demoThirteen.numPixels
          ∧ (∀ j, j ≠ 0 → s2.ledMask[j]? = demoThirteen.ledMask[j]?))
      ∧ (∃ s3, handleConfigureLEDs demoThirteen (.obj [("99999", true)]) = some (s3, 200)
          ∧ s3.ledMask = demoThirteen.ledMask) := by
  have h := C10_configure_spec demoThirteen (List.replicate 13 Color.black)
    "abc" "99999" true rfl rfl (by decide) (by decide) (by decide)
  exact ⟨by decide, by decide, h.1, h.2.1, h.2.2⟩

end LedFirmware
